import Mathlib

/-!
Verification of the solana-trading-bot source against its specification.

Shallow embedding of `src/bot.js` (`security.ts`, `wallet.ts`, `trading-bot.ts`).

Modelling conventions:
* JavaScript numbers are modelled as exact rationals (`ℚ`); the one IEEE-754
  special behaviour the program actually exercises — `0/0 = NaN`, `x/0 = ±∞`,
  and the fact that every comparison with `NaN` is false — is modelled
  explicitly by `JSNum`.
* The Redis counter store is an association list from key to
  (count, expiry time); time is an explicit natural-number parameter.
  `INCR` followed by `EXPIRE key 60` is modelled as one update that stores
  the incremented count with expiry `now + 60`, and a key whose expiry has
  passed reads as absent, matching Redis visibility of expired keys.
* The chain client (`sendAndConfirmTransaction`) is an external collaborator
  and is passed in as an abstract function `send`.
* `async`/`await` sequencing is straight-line: the source awaits every call
  before the next step, so the embedding is direct state passing.
-/

set_option autoImplicit false

namespace TradingBot

/-- JavaScript runtime values as far as `SecurityManager.validateRequest`
inspects them: `null`, a plain object (field name to field value), or any
other value (strings, numbers, booleans, `undefined`), for which either the
truthiness test or the `typeof` object test fails. -/
inductive JSField where
  | null : JSField
  | undef : JSField
  | str : String → JSField
  | num : ℚ → JSField
  deriving DecidableEq, Repr

inductive JSVal where
  | nullVal : JSVal
  | obj : List (String × JSField) → JSVal
  | other : JSVal
  deriving DecidableEq, Repr

/-- Embedding of `SecurityManager.validateRequest` (security.ts lines 44-49):
`request && typeof request (is object) && request.apiKey === this.apiKey &&
Object.values(request).every(val => val != null)`.
`request.apiKey === this.apiKey` is strict equality against the configured
string, so the field must be a string equal to the secret; `val != null` is
loose inequality, which excludes exactly `null` and `undefined`. -/
def validateRequest (apiKey : String) (request : JSVal) : Bool :=
  match request with
  | .nullVal => false
  | .other => false
  | .obj fields =>
      (match fields.find? (fun f => f.1 == "apiKey") with
       | some (_, .str s) => s == apiKey
       | _ => false)
      && fields.all (fun f => !(f.2 == .null) && !(f.2 == .undef))

/-- JS numbers with the IEEE-754 special values the program can produce. -/
inductive JSNum where
  | nan : JSNum
  | posInf : JSNum
  | negInf : JSNum
  | val : ℚ → JSNum
  deriving DecidableEq, Repr

/-- JS division of two finite numbers: `0/0 = NaN`, `x/0 = ±Infinity`. -/
def jsDiv (a b : ℚ) : JSNum :=
  if b = 0 then
    if a = 0 then .nan else if 0 < a then .posInf else .negInf
  else .val (a / b)

/-- Multiplication of a JS number by the positive finite constant 100. -/
def jsMul100 : JSNum → JSNum
  | .nan => .nan
  | .posInf => .posInf
  | .negInf => .negInf
  | .val a => .val (a * 100)

/-- JS less-than `<` between a number and a finite constant: false whenever the left
operand is `NaN`. -/
def jsLtNum : JSNum → ℚ → Bool
  | .nan, _ => false
  | .posInf, _ => false
  | .negInf, _ => true
  | .val a, b => a < b

/-- JS `ToString` for numbers, used only in the interpolated error message. -/
def jsNumToString : JSNum → String
  | .nan => "NaN"
  | .posInf => "Infinity"
  | .negInf => "-Infinity"
  | .val a => toString a

/-- trading-bot.ts lines 103-107. -/
def WHITELISTED_TOKENS : List String :=
  ["So11111111111111111111111111111111111111112",
   "Es9vMFrzaCERJJjPRDq6HPucjM7rFt1FQz2eGDvV2wrf",
   "EPjFWdd5AufqSSqeM2qN1xzybapC8G4wEGGkZwyTDt1v"]

inductive Dex where
  | raydium : Dex
  | pumpfun : Dex
  deriving DecidableEq, Repr

def Dex.toStr : Dex → String
  | .raydium => "raydium"
  | .pumpfun => "pumpfun"

/-- The `TradeRequest` interface (trading-bot.ts lines 114-120). -/
structure TradeRequest where
  apiKey : String
  ipAddress : String
  tokenMint : String
  roi : ℚ
  dex : Dex
  deriving DecidableEq, Repr

/-- The JS object a `TradeRequest` is at runtime, as seen by
`validateRequest` (its five fields, in declaration order). -/
def TradeRequest.toJSVal (td : TradeRequest) : JSVal :=
  .obj [("apiKey", .str td.apiKey),
        ("ipAddress", .str td.ipAddress),
        ("tokenMint", .str td.tokenMint),
        ("roi", .num td.roi),
        ("dex", .str td.dex.toStr)]

/-- A `@solana/web3.js` instruction, opaque to this program: the source only
ever reads `tx.instructions.length`. -/
structure Instruction where
  programId : String
  deriving DecidableEq, Repr

/-- A `@solana/web3.js` `Transaction` as far as the source touches it:
its instruction list and its fee payer. `new Transaction()` starts with no
instructions and no fee payer. -/
structure Transaction where
  instructions : List Instruction
  feePayer : Option String
  deriving DecidableEq, Repr

def Transaction.empty : Transaction := ⟨[], none⟩

/-- Embedding of `SecureTradingBot.verifyTransactionSafety` (trading-bot.ts lines 204-208):
throws `Unsafe transaction` when the transaction is null (`!tx`) or has no
instructions. The argument is `Option`al so the JS `!tx` guard is represented.
-/
def verifyTransactionSafety (tx : Option Transaction) : Except String Unit :=
  match tx with
  | none => .error "Unsafe transaction"
  | some t => if t.instructions.length = 0 then .error "Unsafe transaction" else .ok ()

def minProfitPercentage : ℚ := 5
def maxSlippage : ℚ := 2 / 100

/-- Stub price lookups (trading-bot.ts lines 178-181, 194-202): each returns
the placeholder `0` unconditionally. -/
def getCurrentPrice (_tokenMint : String) : ℚ := 0

def getEstimatedBuyPrice (_td : TradeRequest) : ℚ := 0

def getEstimatedSellPrice (_td : TradeRequest) : ℚ := 0

/-- Core of `SecureTradingBot.calculateProfit` (trading-bot.ts lines 183-192)
as a function of the two estimated prices:
fees `= buy * 0.003 * 2`, slippage `= buy * maxSlippage`, result
`= (sell - buy - fees - slippage) / buy * 100` with JS division semantics. -/
def calculateProfitFrom (estimatedBuyPrice estimatedSellPrice : ℚ) : JSNum :=
  let totalFees := estimatedBuyPrice * (3 / 1000) * 2
  let slippageCost := estimatedBuyPrice * maxSlippage
  let estimatedProfit := estimatedSellPrice - estimatedBuyPrice - totalFees - slippageCost
  jsMul100 (jsDiv estimatedProfit estimatedBuyPrice)

/-- Embedding of `SecureTradingBot.calculateProfit`: fetches both estimated prices for the
request (the `currentPrice` argument is ignored by the source body). -/
def calculateProfit (td : TradeRequest) (_currentPrice : ℚ) : JSNum :=
  calculateProfitFrom (getEstimatedBuyPrice td) (getEstimatedSellPrice td)

/-- Redis state: live counters `key ↦ (count, expiresAt)` plus the
`tx:<signature> ↦ status` markers written after a successful submission. -/
structure BotState where
  counters : List (String × ℕ × ℕ)
  txStatus : List (String × String × ℕ)
  deriving DecidableEq, Repr

def BotState.initial : BotState := ⟨[], []⟩

/-- Read a counter, treating a key whose expiry has passed as absent. -/
def redisGetLive (now : ℕ) (key : String) (cs : List (String × ℕ × ℕ)) : Option ℕ :=
  match cs.find? (fun e => e.1 == key) with
  | some (_, c, exp) => if now < exp then some c else none
  | none => none

/-- Store a counter value with its expiry, replacing any previous entry. -/
def redisSet (key : String) (c exp : ℕ) (cs : List (String × ℕ × ℕ)) :
    List (String × ℕ × ℕ) :=
  (key, c, exp) :: cs.filter (fun e => !(e.1 == key))

/-- Embedding of `SecureWallet.sendTransaction` (wallet.ts lines 79-88): sets the fee payer
to the custodial public key, signs, and delegates to the chain client `send`
(an external collaborator); a failure is rewrapped. The blockhash fetch and
signature bytes are chain-client internals with no observable effect here. -/
def sendTransaction (walletPub : String) (send : Transaction → Except String String)
    (tx : Transaction) : Except String String :=
  let tx1 : Transaction := { tx with feePayer := some walletPub }
  match send tx1 with
  | .ok sig => .ok sig
  | .error e => .error ("Failed to send transaction: " ++ e)

/-- Embedding of `SecureTradingBot.executeTrade` (trading-bot.ts lines 150-176), with the
configured secret, custodial public key, chain client and current time made
explicit. Returns the thrown error or the returned signature, together with
the Redis state after the call. -/
def executeTrade (secret walletPub : String) (send : Transaction → Except String String)
    (st : BotState) (now : ℕ) (td : TradeRequest) : Except String String × BotState :=
  if !validateRequest secret td.toJSVal then (.error "Invalid trade request", st)
  else
    let key := "trade:" ++ td.ipAddress
    let count := (redisGetLive now key st.counters).getD 0 + 1
    let st1 : BotState := { st with counters := redisSet key count (now + 60) st.counters }
    if count > 5 then (.error "Rate limit exceeded", st1)
    else if !(WHITELISTED_TOKENS.contains td.tokenMint) then (.error "Unapproved token", st1)
    else if td.roi < minProfitPercentage then (.error "Trade ROI below threshold", st1)
    else
      let tx := Transaction.empty
      let currentPrice := getCurrentPrice td.tokenMint
      let estimatedProfit := calculateProfit td currentPrice
      if jsLtNum estimatedProfit minProfitPercentage then
        (.error ("Trade not profitable enough. Estimated profit: "
                  ++ jsNumToString estimatedProfit ++ "%"), st1)
      else
        match verifyTransactionSafety (some tx) with
        | .error e => (.error e, st1)
        | .ok _ =>
          match sendTransaction walletPub send tx with
          | .error e => (.error e, st1)
          | .ok sig =>
            (.ok sig,
             { st1 with txStatus := ("tx:" ++ sig, "pending", now + 300) :: st1.txStatus })

/-! ## The wallet key decoding path (wallet.ts constructor, lines 63-72) -/

/-- One step of tag stripping: characters inside a `<`…`>` span are dropped.
The boolean argument records whether the scan is currently inside a tag. -/
def stripTags : List Char → Bool → List Char
  | [], _ => []
  | c :: cs, true => if c = '>' then stripTags cs false else stripTags cs true
  | c :: cs, false => if c = '<' then stripTags cs true else c :: stripTags cs false

/-- Modelled from the spec: the external `sanitize-html` dependency, called by
`SecurityManager.sanitizeInput` with `allowedTags: []` and no allowed
attributes, which per spec §4.1 "strips markup/control sequences from every
value"; modelled as removal of every `<`…`>` tag span. -/
def sanitizeHtmlModel (s : String) : String :=
  ⟨stripTags s.data false⟩

/-- JS `String.prototype.split` at separator comma: split on every comma, keeping empty
pieces. -/
def splitCommaAux : List Char → List Char → List (List Char)
  | [], cur => [cur.reverse]
  | c :: cs, cur =>
    if c = ',' then cur.reverse :: splitCommaAux cs [] else splitCommaAux cs (c :: cur)

def splitComma (s : String) : List String :=
  (splitCommaAux s.data []).map (fun l => ⟨l⟩)

/-- Accumulate leading decimal digits; `none` means no digit was seen (the
`NaN` outcome of `parseInt`). -/
def parseDigits : List Char → Option ℕ → Option ℕ
  | [], acc => acc
  | c :: cs, acc =>
    if c.isDigit then parseDigits cs (some ((acc.getD 0) * 10 + (c.toNat - 48)))
    else acc

/-- JS `parseInt(x)` as exercised by the wallet key path: skip leading
whitespace, read an optional sign, then leading base-10 digits; no digit
yields `NaN` (`none`). (The hexadecimal `0x` form of full `parseInt` never
arises for a comma-separated byte list and is not modelled.) -/
def parseIntJS (s : String) : Option ℤ :=
  match s.data.dropWhile Char.isWhitespace with
  | '-' :: cs => (parseDigits cs none).map (fun n => -(n : ℤ))
  | '+' :: cs => (parseDigits cs none).map (fun n => (n : ℤ))
  | cs => (parseDigits cs none).map (fun n => (n : ℤ))

/-- ECMAScript `ToUint8` element coercion of `Buffer.from(array)`: `NaN`
becomes `0`, every other value is wrapped modulo 256. -/
def bufferByte : Option ℤ → ℕ
  | none => 0
  | some n => (n % 256).toNat

/-- The `SecureWallet` constructor's secret-key decoding (wallet.ts lines
63-69): the raw key string is first passed through
`security.sanitizeInput({ key: walletKey }).key` (HTML sanitization), then
split on commas, `parseInt`-ed and handed to `Buffer.from`; no length or
byte-range check appears anywhere on this path. -/
def decodeWalletKey (walletKey : String) : List ℕ :=
  (splitComma (sanitizeHtmlModel walletKey)).map (fun x => bufferByte (parseIntJS x))

/-- Decoding the same raw string without the sanitization step, for
comparison: shows whether HTML sanitization altered the key material. -/
def decodeKeyWithoutSanitize (walletKey : String) : List ℕ :=
  (splitComma walletKey).map (fun x => bufferByte (parseIntJS x))

/-! ## Spec-side predicates and concrete fixtures -/

/-- The specification's requirement on `authenticate` (spec §4.1), written
from the spec's words for comparison with `validateRequest`: the request is a
non-null object whose `apiKey` credential equals the configured secret and no
field of the request is null, undefined, or empty. -/
def specAuthValid (secret : String) (request : JSVal) : Bool :=
  match request with
  | .obj fields =>
      (fields.find? (fun f => f.1 == "apiKey") == some ("apiKey", .str secret))
      && fields.all (fun f => !(f.2 == .null) && !(f.2 == .undef) && !(f.2 == .str ""))
  | _ => false

/-- A chain client that would accept any submission, used to show that the
submission branch is never reached. -/
def sendOk : Transaction → Except String String :=
  fun _ => .ok "5SignatureBase58"

/-- A concrete well-formed trade request (correct credential, whitelisted
token, ROI above the 5% threshold). -/
def tdValid : TradeRequest :=
  ⟨"secret123", "198.51.100.7", "So11111111111111111111111111111111111111112", 10, .raydium⟩

/-- A concrete trade request with a correct credential but an unapproved
token, claiming an enormous ROI. -/
def tdBad : TradeRequest :=
  ⟨"secret123", "198.51.100.7", "NotAWhitelistedTokenMint1111111111111111111", 1000000, .pumpfun⟩

/-- Redis states reached by five consecutive valid trade submissions from the
same source address at time 0. -/
def c6st1 : BotState := (executeTrade "secret123" "W" sendOk BotState.initial 0 tdValid).2

def c6st2 : BotState := (executeTrade "secret123" "W" sendOk c6st1 0 tdValid).2

def c6st3 : BotState := (executeTrade "secret123" "W" sendOk c6st2 0 tdValid).2

def c6st4 : BotState := (executeTrade "secret123" "W" sendOk c6st3 0 tdValid).2

def c6st5 : BotState := (executeTrade "secret123" "W" sendOk c6st4 0 tdValid).2

/-! ## Helper lemmas -/

@[simp] theorem beq_str_null (s : String) : (JSField.str s == JSField.null) = false := rfl

@[simp] theorem beq_str_undef (s : String) : (JSField.str s == JSField.undef) = false := rfl

@[simp] theorem beq_num_null (q : ℚ) : (JSField.num q == JSField.null) = false := rfl

@[simp] theorem beq_num_undef (q : ℚ) : (JSField.num q == JSField.undef) = false := rfl

/-- On a runtime `TradeRequest` object, `validateRequest` reduces to the
credential comparison: all five fields are strings or numbers, hence never
null or undefined. -/
theorem validateRequest_toJSVal (secret : String) (td : TradeRequest) :
    validateRequest secret td.toJSVal = (td.apiKey == secret) := by
  simp [validateRequest, TradeRequest.toJSVal, List.find?]

/-- With the stub prices (both 0), `calculateProfit` is `0/0 * 100 = NaN` on
every request. -/
theorem calculateProfit_eq_nan (td : TradeRequest) (p : ℚ) :
    calculateProfit td p = JSNum.nan := by
  simp [calculateProfit, calculateProfitFrom, getEstimatedBuyPrice, getEstimatedSellPrice,
    jsDiv, jsMul100, maxSlippage]

/-- Post-authentication normal form of `executeTrade`: once the credential
matches, the call increments the rate counter and then throws the first
applicable error; the profitability branch never fires (the estimate is
`NaN`) and the empty transaction always fails the safety check. -/
theorem executeTrade_of_valid (secret walletPub : String)
    (send : Transaction → Except String String) (st : BotState) (now : ℕ)
    (td : TradeRequest) (hauth : td.apiKey = secret) :
    executeTrade secret walletPub send st now td =
      (let count := (redisGetLive now ("trade:" ++ td.ipAddress) st.counters).getD 0 + 1
       let st1 : BotState :=
         { st with counters := redisSet ("trade:" ++ td.ipAddress) count (now + 60) st.counters }
       if count > 5 then (.error "Rate limit exceeded", st1)
       else if !(WHITELISTED_TOKENS.contains td.tokenMint) then (.error "Unapproved token", st1)
       else if td.roi < minProfitPercentage then (.error "Trade ROI below threshold", st1)
       else (.error "Unsafe transaction", st1)) := by
  unfold executeTrade
  rw [validateRequest_toJSVal, hauth]
  simp only [beq_self_eq_true, Bool.not_true, Bool.false_eq_true, if_false,
    calculateProfit_eq_nan, jsLtNum, Bool.false_eq_true, verifyTransactionSafety,
    Transaction.empty, List.length_nil, if_true, if_false]

/-- The Redis state after any authenticated call: the rate counter for the
caller's address is incremented and its expiry reset, whatever error the call
then throws. -/
theorem executeTrade_snd_of_valid (secret walletPub : String)
    (send : Transaction → Except String String) (st : BotState) (now : ℕ)
    (td : TradeRequest) (hauth : td.apiKey = secret) :
    (executeTrade secret walletPub send st now td).2 =
      { st with counters := (redisSet ("trade:" ++ td.ipAddress)
          ((redisGetLive now ("trade:" ++ td.ipAddress) st.counters).getD 0 + 1)
          (now + 60) st.counters) } := by
  rw [executeTrade_of_valid secret walletPub send st now td hauth]
  dsimp only
  split
  · rfl
  · split
    · rfl
    · split <;> rfl

/-- An authenticated call whose incremented counter exceeds 5 throws the rate
limit error. -/
theorem executeTrade_fst_rateLimited (secret walletPub : String)
    (send : Transaction → Except String String) (st : BotState) (now : ℕ)
    (td : TradeRequest) (hauth : td.apiKey = secret)
    (hc : 5 < (redisGetLive now ("trade:" ++ td.ipAddress) st.counters).getD 0 + 1) :
    (executeTrade secret walletPub send st now td).1 = .error "Rate limit exceeded" := by
  rw [executeTrade_of_valid secret walletPub send st now td hauth]
  dsimp only
  rw [if_pos hc]

/-- An authenticated, not-rate-limited call for a whitelisted token with a
claimed ROI at or above the threshold reaches the safety check and throws
`Unsafe transaction`. -/
theorem executeTrade_fst_safety_error (secret walletPub : String)
    (send : Transaction → Except String String) (st : BotState) (now : ℕ)
    (td : TradeRequest) (hauth : td.apiKey = secret)
    (hc : (redisGetLive now ("trade:" ++ td.ipAddress) st.counters).getD 0 + 1 ≤ 5)
    (hwl : td.tokenMint ∈ WHITELISTED_TOKENS)
    (hroi : minProfitPercentage ≤ td.roi) :
    (executeTrade secret walletPub send st now td).1 = .error "Unsafe transaction" := by
  rw [executeTrade_of_valid secret walletPub send st now td hauth]
  dsimp only
  rw [if_neg (by omega)]
  rw [if_neg (by simpa using hwl)]
  rw [if_neg (by exact not_lt.mpr hroi)]

/-! ## Claim theorems -/

/-- C2: for every TradeRequest input, `executeTrade` never returns a
transaction signature — every call throws one of the five listed errors.
In particular the not-profitable-enough branch never fires, because the
stubbed price lookups make `calculateProfit` return `NaN` and `NaN` is not
below the 5% minimum; any call that passes all validation steps fails the
safety check on the freshly constructed zero-instruction transaction with
`Unsafe transaction` before any submission is attempted. -/
theorem C2_executeTrade_always_throws (secret walletPub : String)
    (send : Transaction → Except String String) (st : BotState) (now : ℕ)
    (td : TradeRequest) :
    ((executeTrade secret walletPub send st now td).1 = .error "Invalid trade request" ∨
     (executeTrade secret walletPub send st now td).1 = .error "Rate limit exceeded" ∨
     (executeTrade secret walletPub send st now td).1 = .error "Unapproved token" ∨
     (executeTrade secret walletPub send st now td).1 = .error "Trade ROI below threshold" ∨
     (executeTrade secret walletPub send st now td).1 = .error "Unsafe transaction") ∧
    calculateProfit td (getCurrentPrice td.tokenMint) = JSNum.nan ∧
    jsLtNum JSNum.nan minProfitPercentage = false := by
  refine ⟨?_, calculateProfit_eq_nan td _, rfl⟩
  by_cases hauth : td.apiKey = secret
  · rw [executeTrade_of_valid secret walletPub send st now td hauth]
    dsimp only
    split
    · exact Or.inr (Or.inl rfl)
    · split
      · exact Or.inr (Or.inr (Or.inl rfl))
      · split
        · exact Or.inr (Or.inr (Or.inr (Or.inl rfl)))
        · exact Or.inr (Or.inr (Or.inr (Or.inr rfl)))
  · unfold executeTrade
    rw [validateRequest_toJSVal]
    rw [beq_eq_false_iff_ne.mpr hauth]
    exact Or.inl rfl

/-- C3: for every quote pair with a positive buy price, the profitability
evaluation computes
`netProfitPercent = ((sell − buy − buy·0.006 − buy·0.02) / buy) · 100`
(the code's `0.003 · 2` round-trip fee equals the spec's 0.006, the maximum
slippage is 0.02), and in particular buy = 100, sell = 108 yields 5.4. -/
theorem C3_profit_formula :
    (∀ buyPrice sellPrice : ℚ, 0 < buyPrice →
      calculateProfitFrom buyPrice sellPrice =
        JSNum.val (((sellPrice - buyPrice - buyPrice * (6 / 1000) - buyPrice * (2 / 100))
          / buyPrice) * 100)) ∧
    calculateProfitFrom 100 108 = JSNum.val (27 / 5) := by
  constructor
  · intro b s hb
    have hb0 : b ≠ 0 := ne_of_gt hb
    simp only [calculateProfitFrom, maxSlippage, jsDiv, hb0, if_false, jsMul100,
      JSNum.val.injEq]
    ring_nf
  · norm_num [calculateProfitFrom, maxSlippage, jsDiv, jsMul100]

/-- C3 witness: the universally quantified formula of `C3_profit_formula`
evaluated at the spec's example quote pair buy = 100, sell = 108, where it
yields 5.4 = 27/5. -/
theorem C3_profit_formula_witness :
    calculateProfitFrom 100 108 =
      JSNum.val (((108 - 100 - 100 * (6 / 1000) - 100 * (2 / 100)) / 100) * 100) :=
  C3_profit_formula.1 100 108 (by norm_num)

/-- C4 (against the claim): at the quote pair the program actually produces
(`buyPrice = 0 ≤ 0`, the stub output), the evaluator does not return a
not-profitable sentinel — it returns `NaN`, and the below-threshold test
`NaN < 5` evaluates to false, so no rejection occurs at all and every request
is its witness. -/
theorem C4_nonpositive_buy_not_rejected :
    calculateProfitFrom 0 0 = JSNum.nan ∧
    jsLtNum (calculateProfitFrom 0 0) minProfitPercentage = false ∧
    (∀ td p, calculateProfit td p = JSNum.nan) := by
  refine ⟨?_, ?_, calculateProfit_eq_nan⟩ <;>
    norm_num [calculateProfitFrom, maxSlippage, jsDiv, jsMul100, jsLtNum]

/-- C10 (against the claim): all three price lookups silently return the
placeholder price 0 for every venue, token and request, never consulting any
venue at all. -/
theorem C10_price_stubs_return_zero :
    (∀ tokenMint, getCurrentPrice tokenMint = 0) ∧
    (∀ td, getEstimatedBuyPrice td = 0) ∧
    (∀ td, getEstimatedSellPrice td = 0) :=
  ⟨fun _ => rfl, fun _ => rfl, fun _ => rfl⟩

/-- C8 (against the claim): the wallet secret key is HTML-sanitized before
decoding (the markup `<b>3</b>` in raw key material is altered from the byte
`0` it would decode to into `3`), and the decoder applies no length or
byte-range validation: the out-of-range entry `300` is silently wrapped to
`44`, the non-numeric entry `abc` becomes `0`, and the 3-entry result (not a
64-byte key) is accepted without error. -/
theorem C8_key_decoding_unvalidated :
    decodeWalletKey "<b>3</b>,300,abc" = [3, 44, 0] ∧
    decodeKeyWithoutSanitize "<b>3</b>,300,abc" = [0, 44, 0] ∧
    (decodeWalletKey "<b>3</b>,300,abc").length ≠ 64 :=
  ⟨by decide, by decide, by decide⟩

/-- C5: an authenticated, not-rate-limited trade request whose token mint is
not in the whitelist throws `Unapproved token`, for every claimed ROI
value (the request's `roi` field is unconstrained here). -/
theorem C5_unapproved_token_error (secret walletPub : String)
    (send : Transaction → Except String String) (st : BotState) (now : ℕ)
    (td : TradeRequest) (hauth : td.apiKey = secret)
    (hrate : (redisGetLive now ("trade:" ++ td.ipAddress) st.counters).getD 0 < 5)
    (hwl : td.tokenMint ∉ WHITELISTED_TOKENS) :
    (executeTrade secret walletPub send st now td).1 = .error "Unapproved token" := by
  rw [executeTrade_of_valid secret walletPub send st now td hauth]
  dsimp only
  rw [if_neg (by omega)]
  rw [if_pos (by simpa using hwl)]

/-- C5 witness: a concrete authenticated request for an unapproved token with
a claimed ROI of 1000000% is rejected with `Unapproved token`. -/
theorem C5_unapproved_token_error_witness :
    (executeTrade "secret123" "W" sendOk BotState.initial 0 tdBad).1
      = .error "Unapproved token" :=
  C5_unapproved_token_error "secret123" "W" sendOk BotState.initial 0 tdBad rfl
    (by decide) (by decide)

/-- C1 (against the claim): two trade submissions carrying the same request
fingerprint (same requester, source address and token, one second apart,
well inside any idempotency TTL) produce ZERO `Submitted` transitions, not
exactly one: both calls throw `Unsafe transaction` before any submission
is attempted, and no pending-transaction record is ever written (`txStatus`
stays empty), so neither call observes an existing record. -/
theorem C1_no_submitted_transition_on_duplicate :
    (executeTrade "secret123" "W" sendOk BotState.initial 0 tdValid).1
        = .error "Unsafe transaction" ∧
    (executeTrade "secret123" "W" sendOk
        (executeTrade "secret123" "W" sendOk BotState.initial 0 tdValid).2 1 tdValid).1
        = .error "Unsafe transaction" ∧
    (executeTrade "secret123" "W" sendOk
        (executeTrade "secret123" "W" sendOk BotState.initial 0 tdValid).2 1 tdValid).2.txStatus
        = [] := by
  have hroi : minProfitPercentage ≤ tdValid.roi := by norm_num [minProfitPercentage, tdValid]
  have hwl : tdValid.tokenMint ∈ WHITELISTED_TOKENS := by decide
  have hs1 := executeTrade_snd_of_valid "secret123" "W" sendOk BotState.initial 0 tdValid rfl
  have hs2 := executeTrade_snd_of_valid "secret123" "W" sendOk
    (executeTrade "secret123" "W" sendOk BotState.initial 0 tdValid).2 1 tdValid rfl
  refine ⟨executeTrade_fst_safety_error _ _ _ _ _ _ rfl (by decide) hwl hroi, ?_, ?_⟩
  · refine executeTrade_fst_safety_error _ _ _ _ _ _ rfl ?_ hwl hroi
    rw [hs1]
    decide
  · rw [hs2]
    dsimp only
    rw [hs1]
    rfl

/-- C6: six individually valid trade requests (correct credential,
whitelisted token, ROI at or above the threshold) from the same source
address, all inside one 60-second window: the first five get past the rate
limiter (each failing only the later safety check), while the sixth is denied
with `Rate limit exceeded`. -/
theorem C6_sixth_request_rate_limited (secret walletPub : String)
    (send : Transaction → Except String String) (td : TradeRequest)
    (t1 t2 t3 t4 t5 t6 : ℕ) (st1 st2 st3 st4 st5 : BotState)
    (hauth : td.apiKey = secret)
    (hwl : td.tokenMint ∈ WHITELISTED_TOKENS)
    (hroi : minProfitPercentage ≤ td.roi)
    (h12 : t1 ≤ t2) (h23 : t2 ≤ t3) (h34 : t3 ≤ t4) (h45 : t4 ≤ t5) (h56 : t5 ≤ t6)
    (hwin : t6 < t1 + 60)
    (hst1 : st1 = (executeTrade secret walletPub send BotState.initial t1 td).2)
    (hst2 : st2 = (executeTrade secret walletPub send st1 t2 td).2)
    (hst3 : st3 = (executeTrade secret walletPub send st2 t3 td).2)
    (hst4 : st4 = (executeTrade secret walletPub send st3 t4 td).2)
    (hst5 : st5 = (executeTrade secret walletPub send st4 t5 td).2) :
    (executeTrade secret walletPub send BotState.initial t1 td).1
        = .error "Unsafe transaction" ∧
    (executeTrade secret walletPub send st1 t2 td).1 = .error "Unsafe transaction" ∧
    (executeTrade secret walletPub send st2 t3 td).1 = .error "Unsafe transaction" ∧
    (executeTrade secret walletPub send st3 t4 td).1 = .error "Unsafe transaction" ∧
    (executeTrade secret walletPub send st4 t5 td).1 = .error "Unsafe transaction" ∧
    (executeTrade secret walletPub send st5 t6 td).1 = .error "Rate limit exceeded" := by
  have hc1 : st1.counters = [("trade:" ++ td.ipAddress, 1, t1 + 60)] := by
    rw [hst1, executeTrade_snd_of_valid _ _ _ _ _ _ hauth]
    simp [redisGetLive, redisSet, BotState.initial]
  have hl2 : redisGetLive t2 ("trade:" ++ td.ipAddress) st1.counters = some 1 := by
    rw [hc1]
    simp [redisGetLive, show t2 < t1 + 60 by omega]
  have hc2 : st2.counters = [("trade:" ++ td.ipAddress, 2, t2 + 60)] := by
    rw [hst2, executeTrade_snd_of_valid _ _ _ _ _ _ hauth]
    dsimp only
    rw [hl2, hc1]
    simp [redisSet]
  have hl3 : redisGetLive t3 ("trade:" ++ td.ipAddress) st2.counters = some 2 := by
    rw [hc2]
    simp [redisGetLive, show t3 < t2 + 60 by omega]
  have hc3 : st3.counters = [("trade:" ++ td.ipAddress, 3, t3 + 60)] := by
    rw [hst3, executeTrade_snd_of_valid _ _ _ _ _ _ hauth]
    dsimp only
    rw [hl3, hc2]
    simp [redisSet]
  have hl4 : redisGetLive t4 ("trade:" ++ td.ipAddress) st3.counters = some 3 := by
    rw [hc3]
    simp [redisGetLive, show t4 < t3 + 60 by omega]
  have hc4 : st4.counters = [("trade:" ++ td.ipAddress, 4, t4 + 60)] := by
    rw [hst4, executeTrade_snd_of_valid _ _ _ _ _ _ hauth]
    dsimp only
    rw [hl4, hc3]
    simp [redisSet]
  have hl5 : redisGetLive t5 ("trade:" ++ td.ipAddress) st4.counters = some 4 := by
    rw [hc4]
    simp [redisGetLive, show t5 < t4 + 60 by omega]
  have hc5 : st5.counters = [("trade:" ++ td.ipAddress, 5, t5 + 60)] := by
    rw [hst5, executeTrade_snd_of_valid _ _ _ _ _ _ hauth]
    dsimp only
    rw [hl5, hc4]
    simp [redisSet]
  have hl6 : redisGetLive t6 ("trade:" ++ td.ipAddress) st5.counters = some 5 := by
    rw [hc5]
    simp [redisGetLive, show t6 < t5 + 60 by omega]
  refine ⟨executeTrade_fst_safety_error _ _ _ _ _ _ hauth
      (by simp [redisGetLive, BotState.initial]) hwl hroi,
    executeTrade_fst_safety_error _ _ _ _ _ _ hauth (by rw [hl2]; simp) hwl hroi,
    executeTrade_fst_safety_error _ _ _ _ _ _ hauth (by rw [hl3]; simp) hwl hroi,
    executeTrade_fst_safety_error _ _ _ _ _ _ hauth (by rw [hl4]; simp) hwl hroi,
    executeTrade_fst_safety_error _ _ _ _ _ _ hauth (by rw [hl5]; simp) hwl hroi,
    executeTrade_fst_rateLimited _ _ _ _ _ _ hauth (by rw [hl6]; simp)⟩

/-- C6 witness: six concrete valid requests from source address 198.51.100.7
all at time 0; the sixth call is denied with `Rate limit exceeded`. -/
theorem C6_sixth_request_rate_limited_witness :
    (executeTrade "secret123" "W" sendOk c6st5 0 tdValid).1
      = .error "Rate limit exceeded" :=
  (C6_sixth_request_rate_limited "secret123" "W" sendOk tdValid 0 0 0 0 0 0
    c6st1 c6st2 c6st3 c6st4 c6st5 rfl (by decide)
    (by norm_num [minProfitPercentage, tdValid])
    (Nat.le_refl 0) (Nat.le_refl 0) (Nat.le_refl 0) (Nat.le_refl 0) (Nat.le_refl 0)
    (by omega) rfl rfl rfl rfl rfl).2.2.2.2.2

/-- C7 counterexample: a request object carrying the correct credential and
an empty-string field is accepted by `validateRequest`, although the spec's
predicate (true iff no field is null or empty) rejects it — so the claimed
"if and only if" fails at this input. -/
theorem C7_empty_field_accepted :
    validateRequest "secret123"
        (JSVal.obj [("apiKey", .str "secret123"), ("tokenMint", .str "")]) = true ∧
    specAuthValid "secret123"
        (JSVal.obj [("apiKey", .str "secret123"), ("tokenMint", .str "")]) = false :=
  ⟨by decide, by decide⟩

/-- C7 amended: `validateRequest` returns true iff the request is a non-null
object whose `apiKey` field is a string strictly equal to the configured
secret and no field of the request is null or undefined; empty strings are
NOT rejected. Non-objects and null are always rejected (fails closed). -/
theorem C7_validateRequest_amended (secret : String) (request : JSVal) :
    validateRequest secret request = true ↔
      ∃ fields, request = JSVal.obj fields ∧
        fields.find? (fun f => f.1 == "apiKey") = some ("apiKey", JSField.str secret) ∧
        ∀ f ∈ fields, f.2 ≠ JSField.null ∧ f.2 ≠ JSField.undef := by
  cases request with
  | nullVal => simp [validateRequest]
  | other => simp [validateRequest]
  | obj fields =>
      simp only [validateRequest, Bool.and_eq_true, JSVal.obj.injEq]
      constructor
      · rintro ⟨hfind, hall⟩
        refine ⟨fields, rfl, ?_, ?_⟩
        · rcases hm : fields.find? (fun f => f.1 == "apiKey") with _ | ⟨k, v⟩
          · rw [hm] at hfind
            simp at hfind
          · have hk : k = "apiKey" := by
              have h := List.find?_some hm
              simpa using h
            rw [hm] at hfind
            cases v with
            | str s =>
                have hs : s = secret := by simpa using hfind
                rw [hk, hs] at hm
                exact hm
            | null => simp at hfind
            | undef => simp at hfind
            | num q => simp at hfind
        · intro f hf
          have h := (List.all_eq_true.mp hall) f hf
          simp only [Bool.and_eq_true, Bool.not_eq_true'] at h
          exact ⟨beq_eq_false_iff_ne.mp h.1, beq_eq_false_iff_ne.mp h.2⟩
      · rintro ⟨fields2, heq, hfind, hall⟩
        subst heq
        constructor
        · rw [hfind]
          simp
        · rw [List.all_eq_true]
          intro f hf
          have h := hall f hf
          simp only [Bool.and_eq_true, Bool.not_eq_true']
          exact ⟨beq_eq_false_iff_ne.mpr h.1, beq_eq_false_iff_ne.mpr h.2⟩

/-- C9 counterexample: a transaction with one instruction and NO fee payer
passes the safety check, so the check does not require a valid fee payer as
the claim states. -/
theorem C9_missing_feePayer_passes_safety :
    verifyTransactionSafety
        (some (Transaction.mk [Instruction.mk "11111111111111111111111111111111"] none))
      = .ok () ∧
    (Transaction.mk [Instruction.mk "11111111111111111111111111111111"] none).feePayer
      = none :=
  ⟨rfl, rfl⟩

/-- C9 amended: the safety check fails (with `Unsafe transaction`) exactly
when the transaction is null or contains zero instructions; the fee payer is
not examined by the check — it is set unconditionally by the wallet
immediately before signing and sending. -/
theorem C9_safety_check_amended (tx : Option Transaction) :
    verifyTransactionSafety tx = .ok () ↔
      ∃ t, tx = some t ∧ t.instructions ≠ [] := by
  cases tx with
  | none => simp [verifyTransactionSafety]
  | some t =>
      simp [verifyTransactionSafety, List.length_eq_zero]

end TradingBot
